import Mathlib

/-!
Verification development for the real-estate analysis bot
(`main.py`, `db_handler.py`, and the near-duplicate revision in
`untitled folder/main.py`).

The Python pipeline is shallowly embedded: pure helpers become Lean
functions, the database connection becomes an explicit transaction state,
the Telegram/HTTP/PDF libraries become explicit inputs and an event trace.
Machine-level details that no claim depends on (exact PDF bytes, the HTTP
wire format) are abstracted into constructors that record the observable
call.
-/

/-! ## Python string primitives -/

/-- Lowercasing of a single character as Python's `str.lower` behaves on the
character ranges that occur in this repository: ASCII `A`-`Z` and the
Cyrillic capitals `А`-`Я` and `Ё`.  Other characters are left unchanged. -/
def charLower (c : Char) : Char :=
  if 'A' ≤ c && c ≤ 'Z' then Char.ofNat (c.toNat + 32)
  else if 'А' ≤ c && c ≤ 'Я' then Char.ofNat (c.toNat + 32)
  else if c == 'Ё' then 'ё'
  else c

/-- Python `s.lower()`. -/
def pyLowerStr (s : String) : String :=
  String.mk (s.data.map charLower)

/-- Boolean list-prefix test (structural, used instead of library versions so
that every containment fact reduces in the kernel). -/
def isPre : List Char → List Char → Bool
  | [], _ => true
  | _ :: _, [] => false
  | a :: as, b :: bs => a == b && isPre as bs

/-- Boolean substring-occurrence test on character lists. -/
def hasInfix (pat : List Char) : List Char → Bool
  | [] => pat.isEmpty
  | c :: t => isPre pat (c :: t) || hasInfix pat t

/-- Python `pat in s` for strings. -/
def strIn (pat s : String) : Bool :=
  hasInfix pat.data s.data

/-- Python `s.split(sep)` for a single-character separator, on character
lists: every occurrence of the separator splits, empty pieces are kept, and
the empty string yields one empty piece. -/
def pySplit1 (sep : Char) : List Char → List (List Char)
  | [] => [[]]
  | c :: t =>
    if c == sep then [] :: pySplit1 sep t
    else
      match pySplit1 sep t with
      | [] => [[c]]
      | h :: rt => (c :: h) :: rt

/-- Python `s.split(sep)` for a single-character separator. -/
def pySplit (s : String) (sep : Char) : List String :=
  (pySplit1 sep s.data).map String.mk

/-- Python `sep.join(xs)`. -/
def pyJoin (sep : String) : List String → String
  | [] => ""
  | [x] => x
  | x :: rest => x ++ sep ++ pyJoin sep rest

/-- Python slicing `s[:n]` (by code points). -/
def takeStr (n : Nat) (s : String) : String :=
  String.mk (s.data.take n)

/-! ## Python numeric conversions (`float(...)`, `int(...)`) -/

/-- Whitespace accepted (and stripped) around Python numeric literals. -/
def isWs (c : Char) : Bool :=
  c == ' ' || c == '\t' || c == '\n' || c == '\r'

/-- Strip surrounding whitespace from a character list. -/
def stripWs (l : List Char) : List Char :=
  ((l.dropWhile isWs).reverse.dropWhile isWs).reverse

/-- Numeric value of a digit string. -/
def natOfDigits (l : List Char) : Nat :=
  l.foldl (fun a c => a * 10 + (c.toNat - 48)) 0

/-- Read an optional leading sign; returns (isNegative, rest). -/
def readSign : List Char → Bool × List Char
  | '+' :: t => (false, t)
  | '-' :: t => (true, t)
  | l => (false, l)

/-- An exact decimal number `mantissa / 10 ^ exp10`, the value a Python
`float(...)` literal denotes.  Kept unnormalized so that equality reduces
structurally in the kernel. -/
structure PyFloat where
  mantissa : Int
  exp10 : Nat
deriving DecidableEq

/-- Apply an optional exponent suffix (after `e`/`E`) to a parsed mantissa. -/
def pyExpApply (neg : Bool) (mant : PyFloat) (t : List Char) : Option PyFloat :=
  let p := readSign t
  let ed := p.2.takeWhile Char.isDigit
  let rest := p.2.dropWhile Char.isDigit
  if ed.isEmpty || !rest.isEmpty then none
  else
    let e := natOfDigits ed
    let scaled : PyFloat :=
      if p.1 then ⟨mant.mantissa, mant.exp10 + e⟩
      else ⟨mant.mantissa * (10 : Int) ^ e, mant.exp10⟩
    some (if neg then ⟨-scaled.mantissa, scaled.exp10⟩ else scaled)

/-- Python `float(s)` on decimal literals: surrounding whitespace, optional
sign, integer and/or fractional digits, optional exponent.  The special
spellings `inf`/`nan` (not decimal values) and digit underscores are out of
scope; no claim depends on them.  Returns the exact decimal value. -/
def pyFloatVal (s : String) : Option PyFloat :=
  let l := stripWs s.data
  let p := readSign l
  let ip := p.2.takeWhile Char.isDigit
  let l2 := p.2.dropWhile Char.isDigit
  let q : List Char × List Char :=
    match l2 with
    | '.' :: t => (t.takeWhile Char.isDigit, t.dropWhile Char.isDigit)
    | _ => ([], l2)
  if ip.isEmpty && q.1.isEmpty then none
  else
    let m : Int := (natOfDigits ip * 10 ^ q.1.length + natOfDigits q.1 : Nat)
    let mant : PyFloat := ⟨m, q.1.length⟩
    match q.2 with
    | [] => some (if p.1 then ⟨-mant.mantissa, mant.exp10⟩ else mant)
    | 'e' :: t => pyExpApply p.1 mant t
    | 'E' :: t => pyExpApply p.1 mant t
    | _ => none

/-- Python `int(s)`: surrounding whitespace, optional sign, digits. -/
def pyIntVal (s : String) : Option Int :=
  let l := stripWs s.data
  let p := readSign l
  let ds := p.2.takeWhile Char.isDigit
  let rest := p.2.dropWhile Char.isDigit
  if ds.isEmpty || !rest.isEmpty then none
  else some (if p.1 then -(natOfDigits ds : Int) else (natOfDigits ds : Int))

/-! ## Grade Estimator (`calculate_investment_grade`, identical in both
revisions of `main.py`) -/

/-- The configured risk keyword. -/
def riskKw : String := "риск"

/-- The configured potential keyword. -/
def potKw : String := "потенциал"

/-- `calculate_investment_grade` from `main.py`: baseline `len(analysis)//10`,
minus 20 if the lowercased narrative contains the risk keyword, plus 20 if it
contains the potential keyword, result clamped by `min(100, max(0, grade))`. -/
def calculate_investment_grade (analysis : String) : Int :=
  let lower := pyLowerStr analysis
  let g0 : Int := (analysis.length / 10 : Nat)
  let g1 : Int := if strIn riskKw lower then g0 - 20 else g0
  let g2 : Int := if strIn potKw lower then g1 + 20 else g1
  min 100 (max 0 g2)

/-- The Grade Estimator as worded by the specification: clamp to [0,100] of
baseline `floor(length/10)` minus 20 when the risk keyword occurs
(case-insensitively), plus 20 when the potential keyword occurs.  Stated
separately from `calculate_investment_grade` so the two can be compared. -/
def specGrade (narrative : String) : Int :=
  let base : Int := (narrative.length / 10 : Nat)
  let riskPenalty : Int := if strIn riskKw (pyLowerStr narrative) then 20 else 0
  let potBonus : Int := if strIn potKw (pyLowerStr narrative) then 20 else 0
  max 0 (min 100 (base - riskPenalty + potBonus))

/-! ## Report Store (`db_handler.py`, class `Database`) -/

/-- One row of the `analyses` table:
`(user_id, location, area, price, type, result)`. -/
structure Row where
  uid : Int
  location : String
  area : PyFloat
  price : Int
  ptype : String
  result : String
deriving DecidableEq

/-- The single long-lived psycopg2 connection with `autocommit = False`:
committed rows plus the uncommitted writes of the open transaction. -/
structure Conn where
  committed : List Row
  pending : List Row
deriving DecidableEq

/-- `conn.rollback()`: discard uncommitted writes. -/
def rollback (c : Conn) : Conn :=
  { c with pending := [] }

/-- `conn.commit()`: make uncommitted writes durable. -/
def commitConn (c : Conn) : Conn :=
  ⟨c.committed ++ c.pending, []⟩

/-- `cur.execute(INSERT ...)`: stage one row in the open transaction. -/
def execInsert (c : Conn) (r : Row) : Conn :=
  { c with pending := c.pending ++ [r] }

/-- The exceptions `save_analysis` catches and re-raises: `ValueError` from
length/conversion checks, `psycopg2.errors.Error` from the database. -/
inductive DBErr
  | valueError
  | dbError
deriving DecidableEq

/-- `Database.save_analysis(user_id, data, result)` from `db_handler.py`.
`data` is the Python sequence argument: `len(data)` must be 4, `data[1]` must
convert via `float`, `data[2]` via `int`; then one row is inserted and the
transaction committed.  On `ValueError` or a database error (injected here by
`fault`) the transaction is rolled back and the exception re-raised.  Returns
the raised-or-ok outcome together with the connection state afterwards. -/
def save_analysis (c : Conn) (user_id : Int) (data : List String) (result : String)
    (fault : Bool) : Except DBErr Unit × Conn :=
  if data.length = 4 then
    match pyFloatVal (data.getD 1 "") with
    | none => (.error .valueError, rollback c)
    | some area =>
      match pyIntVal (data.getD 2 "") with
      | none => (.error .valueError, rollback c)
      | some price =>
        let c1 := execInsert c
          ⟨user_id, data.getD 0 "", area, price, data.getD 3 "", result⟩
        if fault then (.error .dbError, rollback c1)
        else (.ok (), commitConn c1)
  else (.error .valueError, rollback c)

/-! ## Analysis Client (`deepseek_analysis`) -/

/-- The observable part of the DeepSeek HTTP response: status code and the
optional `"text"` field of the JSON body. -/
structure HttpResp where
  status : Nat
  textField : Option String
deriving DecidableEq

/-- Fallback narrative returned on a non-success status. -/
def fallbackMsg : String := "Ошибка при запросе к DeepSeek API"

/-- Default narrative when a 200 body lacks the `"text"` field
(`response.json().get("text", "Ошибка в анализе")`). -/
def missingTextMsg : String := "Ошибка в анализе"

/-- The body of `deepseek_analysis` after the POST returned: on status 200
the `"text"` field (or its default), otherwise the fixed fallback string —
never an exception. -/
def deepseek_analysis_model (resp : HttpResp) : String :=
  if resp.status = 200 then resp.textField.getD missingTextMsg else fallbackMsg

/-! ## Report Renderer (`generate_pdf_report`) -/

/-- One `canvas.drawString(x, y, text)` call. -/
structure DrawOp where
  x : Int
  y : Int
  text : String
deriving DecidableEq

/-- The finished ReportLab buffer: the drawn operations and the read
position after `buffer.seek(0)`. -/
structure Pdf where
  ops : List DrawOp
  pos : Nat
deriving DecidableEq

/-- Grade line drawn for item `g` in the multi-item report. -/
def gradeLine (g : Int) : String :=
  "💰 Оценка инвестиционной привлекательности: " ++ toString g ++ "/100"

/-- The `for i in range(len(analyses))` loop of `generate_pdf_report`:
heading, truncated narrative (`analyses[i][:400]`) and grade line per item,
descending 80 points per item.  `none` models the `IndexError` Python raises
when `grades` is shorter than `analyses`. -/
def pdfItems (i : Nat) (y : Int) : List String → List Int → Option (List DrawOp)
  | [], _ => some []
  | _ :: _, [] => none
  | a :: as, g :: gs =>
    match pdfItems (i + 1) (y - 80) as gs with
    | none => none
    | some rest =>
      some (⟨72, y, "🏡 Объект " ++ toString (i + 1)⟩ ::
            ⟨72, y - 20, takeStr 400 a⟩ ::
            ⟨72, y - 40, gradeLine g⟩ :: rest)

/-- `generate_pdf_report(analyses, grades)` from `main.py`: header at
`(72, 750)`, then the item loop starting at `y = 730`, then `seek(0)`. -/
def generate_pdf_report (analyses : List String) (grades : List Int) :
    Except Unit Pdf :=
  match pdfItems 0 730 analyses grades with
  | some items =>
    .ok ⟨⟨72, 750, "Сравнительный анализ недвижимости"⟩ :: items, 0⟩
  | none => .error ()

/-- `generate_pdf_report(analysis_result, investment_grade)` from the
`untitled folder` revision: three fixed lines, no truncation. -/
def generate_pdf_report2 (analysis : String) (grade : Int) : Pdf :=
  ⟨[⟨72, 750, "Аналитический отчет по недвижимости"⟩,
    ⟨72, 730, analysis⟩,
    ⟨72, 710, "Оценка инвестиционной привлекательности: " ++ toString grade ++ "/100"⟩], 0⟩

/-! ## The memoizing decorator (`@cached(cache)` with
`cache = TTLCache(maxsize=100, ttl=300)`)

`cachetools.cached` computes `hashkey(*args)` — a tuple of the call's
arguments — and looks it up in the cache, which hashes the key.  Python
values are hashable except (relevantly) lists. -/

/-- Python values as they appear in the cache key. -/
inductive PyVal
  | str (s : String)
  | int (n : Int)
  | list (xs : List PyVal)
  | tuple (xs : List PyVal)

mutual

/-- Python hashability: strings and ints hash; a tuple hashes when all its
elements do; a list never hashes (`TypeError: unhashable type`). -/
def pyHashable : PyVal → Bool
  | .str _ => true
  | .int _ => true
  | .list _ => false
  | .tuple xs => pyHashableAll xs

/-- All values of a list are hashable. -/
def pyHashableAll : List PyVal → Bool
  | [] => true
  | v :: vs => pyHashable v && pyHashableAll vs

end

mutual

/-- Structural equality of Python cache-key values. -/
def pyEq : PyVal → PyVal → Bool
  | .str a, .str b => a == b
  | .int a, .int b => a == b
  | .list as, .list bs => pyEqList as bs
  | .tuple as, .tuple bs => pyEqList as bs
  | _, _ => false

/-- Elementwise equality of value lists. -/
def pyEqList : List PyVal → List PyVal → Bool
  | [], [] => true
  | a :: as, b :: bs => pyEq a b && pyEqList as bs
  | _, _ => false

end

/-- The `TTLCache(maxsize=100, ttl=300)` state: configuration plus entries
`(key, value, insertion time)`. -/
structure TTLCacheState where
  maxsize : Nat
  ttl : Nat
  entries : List (PyVal × String × Nat)

/-- The cache as initialised in `main.py` line 29. -/
def cache_init : TTLCacheState := ⟨100, 300, []⟩

/-- One call through the `@cached(cache)` wrapper seen as a plain memoizer:
build the key tuple from the arguments, raise `TypeError` (`.error`) if it is
unhashable, otherwise return a live cached value or compute, store and
return.  The returned flag records whether the wrapped body ran. -/
def cachetools_cached_call (c : TTLCacheState) (now : Nat) (args : List PyVal)
    (compute : String) : Except Unit (TTLCacheState × String × Bool) :=
  let k : PyVal := .tuple args
  if pyHashable k then
    match c.entries.find? (fun e => pyEq e.1 k && now < e.2.2 + c.ttl) with
    | some e => .ok (c, e.2.1, false)
    | none =>
      .ok ({ c with entries := ((k, compute, now) :: c.entries).take c.maxsize },
           compute, true)
  else .error ()

/-- The argument list of the call `deepseek_analysis(data)` in revision 1:
a single Python `list` of the four field strings. -/
def deepseek_call_args (data : List String) : List PyVal :=
  [PyVal.list (data.map PyVal.str)]

/-- The argument list of the call `deepseek_analysis(tuple(data))` in the
`untitled folder` revision: a single Python tuple of the field strings. -/
def deepseek_call_args2 (data : List String) : List PyVal :=
  [PyVal.tuple (data.map PyVal.str)]

/-! ## Conversation turn model (`handle_message`, both revisions)

The Telegram layer is an external collaborator; a turn is modelled as a
function from the turn's inputs (including the shared cache state) to the
list of observable calls it makes (remote analysis requests, `save_analysis`
invocations, replies and documents) together with the final connection
state.  A reply of `genericErr` models the turn-boundary `except` clause. -/

/-- Observable calls of one turn. -/
inductive Ev
  | remoteCall (data : List String)
  | saveCall (uid : Int) (data : List String) (result : String)
  | replyText (s : String)
  | replyDoc (filename : String) (pdf : Pdf)
deriving DecidableEq

/-- Whether an event is a `save_analysis` invocation. -/
def Ev.isSave : Ev → Bool
  | .saveCall _ _ _ => true
  | _ => false

/-- Whether an event is a sent document. -/
def Ev.isDoc : Ev → Bool
  | .replyDoc _ _ => true
  | _ => false

/-- Revision-1 message for a single-analysis turn that is not one line. -/
def oneObjErr : String :=
  "Ошибка: введите **один объект** в формате: Локация|Площадь|Цена|Тип"

/-- Format-error message for a wrong field count (same text in both
revisions). -/
def fmtErr : String :=
  "Неверный формат данных. Используйте: Локация|Площадь|Цена|Тип объекта"

/-- Revision-1 message for a comparison turn with fewer than two lines. -/
def twoObjErr : String :=
  "Ошибка: введите **минимум 2 объекта** в формате:\nЛокация|Площадь|Цена|Тип"

/-- Revision-1 per-line format error in comparison mode. -/
def lineErr (line : String) : String :=
  "Ошибка в строке: `" ++ line ++ "`. Убедитесь, что формат: Локация|Площадь|Цена|Тип"

/-- Revision-1 generic turn-boundary error message. -/
def genericErr : String := "Произошла ошибка. Попробуйте еще раз."

/-- Revision-1 chat reply for a completed single analysis. -/
def reportText (a : String) (g : Int) : String :=
  "📊 **Аналитический отчет**:\n" ++ a ++
  "\n💰 **Оценка инвестиционной привлекательности**: " ++ toString g ++ "/100"

/-- A stub of the remote transport: the HTTP response for a listing, or
`.error` when `requests.post` itself raises. -/
def Responder : Type := List String → Except Unit HttpResp

/-- One `await deepseek_analysis(...)` as the handlers observe it: the
`@cached(cache)` wrapper composed with Python's `await` on the wrapped
`async def`.  `args` is the call's argument list (so the key is
`hashkey(*args)`, their tuple); `data` are the four fields the body would
POST about.  Faithful to cachetools plus coroutine semantics:

* an unhashable key raises `TypeError` while hashing `cache[k]`, before any
  lookup, store or request;
* on a live hit the wrapper returns the *stored value* — the coroutine
  object of the call that stored it, which that caller already awaited — so
  `await` raises `RuntimeError` (cannot reuse an awaited coroutine); again
  no request;
* on a miss the wrapper calls the function, obtaining a fresh coroutine,
  stores it, and returns it; the caller's `await` then runs the body: one
  POST, whose transport errors propagate and whose response is handled by
  `deepseek_analysis_model`.  The Python value stored is the coroutine
  object; the `String` recorded in the entry is never read by any later
  step (a hit raises at `await` first), so only the key and time matter.

Returns the events emitted, the cache state afterwards, and the outcome of
the `await`. -/
def awaited_cached_analysis (c : TTLCacheState) (now : Nat) (args : List PyVal)
    (data : List String) (responder : Responder) :
    List Ev × TTLCacheState × Except Unit String :=
  let k : PyVal := .tuple args
  if pyHashable k then
    match c.entries.find? (fun e => pyEq e.1 k && now < e.2.2 + c.ttl) with
    | some _ => ([], c, .error ())
    | none =>
      match responder data with
      | .error _ =>
        ([.remoteCall data],
         { c with entries := ((k, "", now) :: c.entries).take c.maxsize },
         .error ())
      | .ok resp =>
        ([.remoteCall data],
         { c with entries :=
             ((k, deepseek_analysis_model resp, now) :: c.entries).take c.maxsize },
         .ok (deepseek_analysis_model resp))
  else ([], c, .error ())

/-- The single-analysis branch of revision 1's `handle_message` (the
`awaiting_analysis` path).  The analysis call goes through
`awaited_cached_analysis` with `deepseek_call_args data` — a key containing
the Python list `data`, so in this revision the call always raises
`TypeError` and the later steps are unreachable; they are modelled anyway,
following the source text. -/
def analysisTurn (uid : Int) (text : String) (cache : TTLCacheState) (now : Nat)
    (responder : Responder) (fault : Bool) (conn : Conn) : List Ev × Conn :=
  let lines := pySplit text '\n'
  if lines.length ≠ 1 then ([.replyText oneObjErr], conn)
  else
    let data := pySplit (lines.headD "") '|'
    if data.length ≠ 4 then ([.replyText fmtErr], conn)
    else
      let call := awaited_cached_analysis cache now (deepseek_call_args data)
        data responder
      match call.2.2 with
      | .error _ => (call.1 ++ [.replyText genericErr], conn)
      | .ok analysis_result =>
        let investment_grade := calculate_investment_grade analysis_result
        match save_analysis conn uid data analysis_result fault with
        | (.error _, c1) =>
          (call.1 ++ [.saveCall uid data analysis_result,
            .replyText genericErr], c1)
        | (.ok _, c1) =>
          match generate_pdf_report [analysis_result] [investment_grade] with
          | .error _ =>
            (call.1 ++ [.saveCall uid data analysis_result,
              .replyText genericErr], c1)
          | .ok pdf =>
            (call.1 ++ [.saveCall uid data analysis_result,
              .replyText (reportText analysis_result investment_grade),
              .replyDoc "report.pdf" pdf], c1)

/-- Revision-1 chat reply line for object `i+1` of a comparison. -/
def comparisonItem (i : Nat) (a : String) (g : Int) : String :=
  "🏡 **Объект " ++ toString (i + 1) ++ "**:\n" ++ a ++ "\n💰 Оценка: " ++
  toString g ++ "/100"

/-- The `for line in lines` loop of the comparison branch: per line, parse,
then `await deepseek_analysis(data)` — through the same wrapper with the same
list-typed argument, so the first well-formed line raises `TypeError` — and
grade; abort the turn (with the recorded events) on a malformed line or a
raising analysis call.  The cache state is threaded through the iterations.
The database is never touched. -/
def compareLoop (responder : Responder) (now : Nat) :
    List String → TTLCacheState → List Ev → List String → List Int →
    List Ev × Option (List String × List Int)
  | [], _, evs, accA, accG => (evs, some (accA, accG))
  | line :: rest, c, evs, accA, accG =>
    let data := pySplit line '|'
    if data.length ≠ 4 then (evs ++ [.replyText (lineErr line)], none)
    else
      let call := awaited_cached_analysis c now (deepseek_call_args data)
        data responder
      match call.2.2 with
      | .error _ => (evs ++ call.1 ++ [.replyText genericErr], none)
      | .ok a =>
        compareLoop responder now rest call.2.1 (evs ++ call.1)
          (accA ++ [a]) (accG ++ [calculate_investment_grade a])

/-- The comparison branch of revision 1's `handle_message` (the
`awaiting_comparison` path).  It contains no `save_analysis` call. -/
def comparisonTurn (text : String) (cache : TTLCacheState) (now : Nat)
    (responder : Responder) (conn : Conn) : List Ev × Conn :=
  let lines := pySplit text '\n'
  if lines.length < 2 then ([.replyText twoObjErr], conn)
  else
    match compareLoop responder now lines cache [] [] [] with
    | (evs, none) => (evs, conn)
    | (evs, some (analyses, grades)) =>
      match generate_pdf_report analyses grades with
      | .error _ => (evs ++ [.replyText genericErr], conn)
      | .ok pdf =>
        let body := pyJoin "\n\n"
          ((List.range analyses.length).map fun i =>
            comparisonItem i (analyses.getD i "") (grades.getD i 0))
        (evs ++ [.replyText ("📊 **Сравнительный анализ объектов**:\n" ++ body),
                 .replyDoc "comparison_report.pdf" pdf], conn)

/-- Revision 1's `handle_message`: dispatch on the `awaiting_analysis` /
`awaiting_comparison` flags of `context.user_data` (the analysis flag is
checked first, exactly as in the source); with neither flag the handler falls
through without replying. -/
def handle_message (awaitingAnalysis awaitingComparison : Bool) (uid : Int)
    (text : String) (cache : TTLCacheState) (now : Nat) (responder : Responder)
    (fault : Bool) (conn : Conn) : List Ev × Conn :=
  if awaitingAnalysis then analysisTurn uid text cache now responder fault conn
  else if awaitingComparison then comparisonTurn text cache now responder conn
  else ([], conn)

/-! ## Revision 2 (`untitled folder/main.py`) -/

/-- Revision-2 generic turn-boundary error message. -/
def genericErr2 : String :=
  "Произошла ошибка при обработке запроса. Попробуйте еще раз."

/-- Revision-2 chat reply for a completed analysis (with recommendation). -/
def reportText2 (a : String) (g : Int) : String :=
  "\n📊 Аналитический отчет:\n" ++ a ++
  "\n\n💰 Оценка инвестиционной привлекательности: " ++ toString g ++ "/100\n" ++
  "Рекомендация: " ++
  (if g ≥ 70 then "Инвестировать" else "Рассмотреть другие варианты") ++ "\n        "

/-- Revision 2's `handle_message`: splits the whole message on `|`, calls
`deepseek_analysis(tuple(data))` — a hashable key, so on a cache miss the
body runs and one request is made — then calls
`db.save_analysis(user_id, "|".join(data), analysis_result)`.  That second
argument is a Python *string*, whose `len` and indexing see single
characters; it is therefore modelled as the list of its one-character
strings. -/
def handle_message2 (uid : Int) (text : String) (cache : TTLCacheState)
    (now : Nat) (responder : Responder) (fault : Bool) (conn : Conn) :
    List Ev × Conn :=
  let data := pySplit text '|'
  if data.length ≠ 4 then ([.replyText fmtErr], conn)
  else
    let call := awaited_cached_analysis cache now (deepseek_call_args2 data)
      data responder
    match call.2.2 with
    | .error _ => (call.1 ++ [.replyText genericErr2], conn)
    | .ok analysis_result =>
      let investment_grade := calculate_investment_grade analysis_result
      let joined := (pyJoin "|" data).data.map Char.toString
      match save_analysis conn uid joined analysis_result fault with
      | (.error _, c1) =>
        (call.1 ++ [.saveCall uid joined analysis_result,
          .replyText genericErr2], c1)
      | (.ok _, c1) =>
        let pdf := generate_pdf_report2 analysis_result investment_grade
        (call.1 ++ [.saveCall uid joined analysis_result,
          .replyText (reportText2 analysis_result investment_grade),
          .replyDoc "report.pdf" pdf], c1)

/-! ## Concrete inputs used by witnesses and counterexamples -/

/-- The well-formed end-to-end input of spec scenario A. -/
def goodInput : String := "Moscow|50|10000000|Apartment"

/-- The malformed-area input of spec scenario B. -/
def badAreaInput : String := "Moscow|fifty|10000000|Apartment"

/-- A stub transport answering every request with status 200 and a fixed
narrative. -/
def okResponder : Responder := fun _ => .ok ⟨200, some "анализ"⟩

/-- A stub transport answering every request with HTTP 500. -/
def failResponder : Responder := fun _ => .ok ⟨500, none⟩

/-- A 200-character narrative containing the potential keyword once and no
risk keyword. -/
def potNarr : String := potKw ++ String.mk (List.replicate 191 'x')

/-- A 1200-character narrative: long enough that the grade stays clamped at
100 even after the risk penalty. -/
def longNarr : String := String.mk (List.replicate 1200 'x')

/-! ## Helper lemmas -/

theorem data_append (s t : String) : (s ++ t).data = s.data ++ t.data := by
  cases s; cases t; rfl

theorem length_append_str (s t : String) : (s ++ t).length = s.length + t.length := by
  show (s ++ t).data.length = s.data.length + t.data.length
  rw [data_append, List.length_append]

theorem isPre_refl (l : List Char) : isPre l l = true := by
  induction l with
  | nil => rfl
  | cons c t ih => simp [isPre, ih]

theorem hasInfix_append_self (p s : List Char) : hasInfix p (s ++ p) = true := by
  induction s with
  | nil =>
    cases p with
    | nil => rfl
    | cons c t => simp [hasInfix, isPre_refl]
  | cons c t ih => simp [hasInfix, ih]

theorem isPre_concat_notMem (x : Char) (xs l : List Char) (hx : x ∉ l) :
    isPre (xs ++ [x]) l = false := by
  induction xs generalizing l with
  | nil =>
    cases l with
    | nil => rfl
    | cons c t =>
      have : ¬ x = c := fun h => hx (h ▸ List.mem_cons_self c t)
      simp [isPre, this]
  | cons a as ih =>
    cases l with
    | nil => rfl
    | cons c t =>
      have ht : x ∉ t := fun h => hx (List.mem_cons_of_mem c h)
      simp [isPre, ih t ht]

theorem isPre_concat_append (x : Char) (xs tl : List Char) (hx : x ∉ tl) :
    ∀ y, isPre (xs ++ [x]) (y ++ tl) = isPre (xs ++ [x]) y := by
  intro y
  induction y generalizing xs with
  | nil =>
    simp only [List.nil_append]
    rw [isPre_concat_notMem x xs tl hx]
    cases xs <;> rfl
  | cons c ys ih =>
    cases xs with
    | nil => simp [isPre]
    | cons a as => simp [isPre, ih as]

theorem hasInfix_concat_notMem (x : Char) (xs l : List Char) (hx : x ∉ l) :
    hasInfix (xs ++ [x]) l = false := by
  induction l with
  | nil => cases xs <;> rfl
  | cons c t ih =>
    have ht : x ∉ t := fun h => hx (List.mem_cons_of_mem c h)
    have hp : isPre (xs ++ [x]) (c :: t) = false := isPre_concat_notMem x xs (c :: t) hx
    simp [hasInfix, hp, ih ht]

theorem hasInfix_concat_append (x : Char) (xs s tl : List Char) (hx : x ∉ tl) :
    hasInfix (xs ++ [x]) (s ++ tl) = hasInfix (xs ++ [x]) s := by
  induction s with
  | nil =>
    simp only [List.nil_append]
    rw [hasInfix_concat_notMem x xs tl hx]
    cases xs <;> rfl
  | cons c t ih =>
    show hasInfix (xs ++ [x]) (c :: (t ++ tl)) = hasInfix (xs ++ [x]) (c :: t)
    simp only [hasInfix]
    rw [ih, show c :: (t ++ tl) = (c :: t) ++ tl from rfl,
      isPre_concat_append x xs tl hx (c :: t)]

theorem clamp_drop (a b : Int) (h : b ≤ a - 19) :
    min 100 (max 0 b) < min 100 (max 0 a)
    ∨ (min 100 (max 0 a) = 0 ∧ min 100 (max 0 b) = 0)
    ∨ (min 100 (max 0 a) = 100 ∧ min 100 (max 0 b) = 100) := by
  simp only [min_def, max_def]
  split_ifs <;> omega

/-! ## Claims -/

/-- C3: for every narrative, `calculate_investment_grade` equals the
specification's formula `clamp(floor(len/10) - 20·[risk] + 20·[potential],
0, 100)` (case-insensitive keyword containment); and every 200-character
narrative containing the potential keyword and no risk keyword grades 40. -/
theorem C3_grade_formula :
    (∀ s, calculate_investment_grade s = specGrade s) ∧
    (∀ s, s.length = 200 → strIn potKw (pyLowerStr s) = true →
      strIn riskKw (pyLowerStr s) = false → calculate_investment_grade s = 40) := by
  constructor
  · intro s
    simp only [calculate_investment_grade, specGrade]
    cases h1 : strIn riskKw (pyLowerStr s) <;>
      cases h2 : strIn potKw (pyLowerStr s) <;>
        simp only [h1, h2, if_true, if_false, Bool.false_eq_true, min_def, max_def] <;>
          split_ifs <;> omega
  · intro s hl h2 h1
    simp only [calculate_investment_grade, h1, h2, hl, if_true, if_false,
      Bool.false_eq_true]
    decide

set_option maxRecDepth 100000 in
/-- Witness for C3: the concrete 200-character narrative `potNarr` (the
potential keyword followed by 191 `x`s) grades exactly 40. -/
theorem C3_grade_formula_witness : calculate_investment_grade potNarr = 40 :=
  C3_grade_formula.2 potNarr (by decide) (by decide) (by decide)

/-- C6 (amended): appending the risk keyword to a narrative that had none
strictly decreases the grade, or both grades are clamped at the same bound —
at 0, or (the case the original claim omits) at 100. -/
theorem C6_amended : ∀ s : String, strIn riskKw (pyLowerStr s) = false →
    calculate_investment_grade (s ++ riskKw) < calculate_investment_grade s
    ∨ (calculate_investment_grade s = 0 ∧ calculate_investment_grade (s ++ riskKw) = 0)
    ∨ (calculate_investment_grade s = 100 ∧
       calculate_investment_grade (s ++ riskKw) = 100) := by
  intro s hrisk
  have hlowdata : (pyLowerStr (s ++ riskKw)).data = (pyLowerStr s).data ++ riskKw.data := by
    show ((s ++ riskKw).data.map charLower) = s.data.map charLower ++ riskKw.data
    rw [data_append, List.map_append]
    congr 1
  have hriskIn : strIn riskKw (pyLowerStr (s ++ riskKw)) = true := by
    show hasInfix riskKw.data (pyLowerStr (s ++ riskKw)).data = true
    rw [hlowdata]
    exact hasInfix_append_self riskKw.data (pyLowerStr s).data
  have hpot : strIn potKw (pyLowerStr (s ++ riskKw)) = strIn potKw (pyLowerStr s) := by
    show hasInfix potKw.data (pyLowerStr (s ++ riskKw)).data
        = hasInfix potKw.data (pyLowerStr s).data
    rw [hlowdata]
    rw [show potKw.data = "потенциа".data ++ ['л'] from by decide]
    exact hasInfix_concat_append 'л' "потенциа".data (pyLowerStr s).data riskKw.data
      (by decide)
  have hlen : (s ++ riskKw).length = s.length + 4 := by
    rw [length_append_str]
    rfl
  simp only [calculate_investment_grade, hrisk, hriskIn, hpot, hlen, if_true,
    if_false, Bool.false_eq_true]
  cases hp : strIn potKw (pyLowerStr s) <;> simp only [if_true, if_false, Bool.false_eq_true]
  · apply clamp_drop
    have : (s.length + 4) / 10 ≤ s.length / 10 + 1 := by omega
    push_cast
    omega
  · apply clamp_drop
    have : (s.length + 4) / 10 ≤ s.length / 10 + 1 := by omega
    push_cast
    omega

/-- Witness for C6 (amended): for the short narrative `"abc"` both grades are
clamped at 0 after appending the risk keyword. -/
theorem C6_amended_witness :
    calculate_investment_grade ("abc" ++ riskKw) < calculate_investment_grade "abc"
    ∨ (calculate_investment_grade "abc" = 0 ∧
       calculate_investment_grade ("abc" ++ riskKw) = 0)
    ∨ (calculate_investment_grade "abc" = 100 ∧
       calculate_investment_grade ("abc" ++ riskKw) = 100) :=
  C6_amended "abc" (by decide)

set_option maxRecDepth 400000 in
/-- Counterexample to C6 as stated: `longNarr` (1200 characters, no risk
keyword) grades 100, and so does `longNarr ++ riskKw` — the grade neither
strictly decreases nor is clamped at 0; both are clamped at 100. -/
theorem C6_counterexample :
    strIn riskKw (pyLowerStr longNarr) = false ∧
    ¬ (calculate_investment_grade (longNarr ++ riskKw) < calculate_investment_grade longNarr
       ∨ (calculate_investment_grade longNarr = 0 ∧
          calculate_investment_grade (longNarr ++ riskKw) = 0)) := by
  constructor
  · decide
  · decide

/-- `pdfItems` on equal-length lists succeeds and draws three lines per item;
when the start height is 10 mod 80 (as the real call's 730 is), the ops whose
height is 10 mod 80 are exactly the per-item headings, one per item. -/
theorem pdfItems_ok : ∀ (as : List String) (gs : List Int) (i : Nat) (y : Int),
    gs.length = as.length →
    ∃ ops, pdfItems i y as gs = some ops ∧ ops.length = 3 * as.length ∧
      (y % 80 = 10 → ops.countP (fun op => op.y % 80 == 10) = as.length) := by
  intro as
  induction as with
  | nil =>
    intro gs i y _
    exact ⟨[], rfl, by simp, fun _ => by simp⟩
  | cons a tl ih =>
    intro gs i y hlen
    cases gs with
    | nil => simp at hlen
    | cons g gt =>
      have hlen' : gt.length = tl.length := by simpa using hlen
      obtain ⟨rest, hrest, hrl, hrc⟩ := ih gt (i + 1) (y - 80) hlen'
      refine ⟨⟨72, y, "🏡 Объект " ++ toString (i + 1)⟩ ::
              ⟨72, y - 20, takeStr 400 a⟩ ::
              ⟨72, y - 40, gradeLine g⟩ :: rest, ?_, ?_, ?_⟩
      · simp only [pdfItems, hrest]
      · simp only [List.length_cons, hrl]
        ring
      · intro hy
        have h80 : (y - 80) % 80 = 10 := by omega
        have h20 : ((y - 20) % 80 == (10 : Int)) = false := by
          simp only [beq_eq_false_iff_ne, ne_eq]
          omega
        have h40 : ((y - 40) % 80 == (10 : Int)) = false := by
          simp only [beq_eq_false_iff_ne, ne_eq]
          omega
        have hyy : (y % 80 == (10 : Int)) = true := by
          simpa using hy
        simp only [List.countP_cons, hrc h80]
        simp only [hyy, h20, h40]
        simp

/-- C7: for N >= 1 results with matching grade count, `generate_pdf_report`
never raises, returns a buffer positioned at its start with a non-empty
operation list — one header plus heading, truncated narrative and grade line
per item at a fixed 80-point vertical offset — whose rendered item count
(headings, the ops at height 10 mod 80) equals N. -/
theorem C7_render : ∀ (analyses : List String) (grades : List Int),
    grades.length = analyses.length → analyses ≠ [] →
    ∃ pdf, generate_pdf_report analyses grades = .ok pdf ∧ pdf.pos = 0 ∧
      pdf.ops ≠ [] ∧ pdf.ops.length = 1 + 3 * analyses.length ∧
      pdf.ops.countP (fun op => op.y % 80 == 10) = analyses.length := by
  intro analyses grades hlen _
  obtain ⟨ops, hops, hlen3, hcount⟩ := pdfItems_ok analyses grades 0 730 hlen
  refine ⟨⟨⟨72, 750, "Сравнительный анализ недвижимости"⟩ :: ops, 0⟩, ?_, rfl, by simp, ?_, ?_⟩
  · simp only [generate_pdf_report, hops]
  · simp only [List.length_cons, hlen3]
    ring
  · have : ((750 : Int) % 80 == (10 : Int)) = false := by decide
    simp only [List.countP_cons, this, hcount (by decide)]
    simp

/-- Witness for C7: rendering the single result ("анализ", 50) yields a
buffer at position 0 with 4 draw operations and item count 1. -/
theorem C7_render_witness :
    ∃ pdf, generate_pdf_report ["анализ"] [50] = .ok pdf ∧ pdf.pos = 0 ∧
      pdf.ops ≠ [] ∧ pdf.ops.length = 1 + 3 * (["анализ"] : List String).length ∧
      pdf.ops.countP (fun op => op.y % 80 == 10) = (["анализ"] : List String).length :=
  C7_render ["анализ"] [50] rfl (by decide)

/-- A successful `save_analysis` call on a clean connection: one row with the
six supplied fields is committed and the transaction is left empty. -/
theorem save_analysis_ok (conn : Conn) (uid : Int) (data : List String)
    (result : String) (area : PyFloat) (price : Int)
    (hp : conn.pending = []) (h4 : data.length = 4)
    (hf : pyFloatVal (data.getD 1 "") = some area)
    (hi : pyIntVal (data.getD 2 "") = some price) :
    save_analysis conn uid data result false =
      (.ok (), ⟨conn.committed ++
        [⟨uid, data.getD 0 "", area, price, data.getD 3 "", result⟩], []⟩) := by
  simp only [save_analysis, h4, hf, hi, if_true, execInsert, commitConn, hp]
  simp

/-- A raising `save_analysis` call leaves the committed rows unchanged and
rolls the transaction back. -/
theorem save_analysis_err (conn : Conn) (uid : Int) (data : List String)
    (result : String) (fault : Bool) (e : DBErr) (c' : Conn)
    (h : save_analysis conn uid data result fault = (.error e, c')) :
    c'.committed = conn.committed ∧ c'.pending = [] := by
  unfold save_analysis at h
  split at h
  · split at h
    · simp only [Prod.mk.injEq] at h
      rw [← h.2]
      exact ⟨rfl, rfl⟩
    · split at h
      · simp only [Prod.mk.injEq] at h
        rw [← h.2]
        exact ⟨rfl, rfl⟩
      · split at h
        · simp only [Prod.mk.injEq] at h
          rw [← h.2]
          exact ⟨rfl, rfl⟩
        · simp at h
  · simp only [Prod.mk.injEq] at h
    rw [← h.2]
    exact ⟨rfl, rfl⟩

/-- Inversion of a successful `save_analysis` call: the data had four fields,
both conversions succeeded, no fault occurred, and exactly the one new row
was committed. -/
theorem save_analysis_ok_inv (conn : Conn) (uid : Int) (data : List String)
    (result : String) (fault : Bool) (u : Unit) (c' : Conn)
    (h : save_analysis conn uid data result fault = (.ok u, c')) :
    ∃ area price, data.length = 4 ∧ pyFloatVal (data.getD 1 "") = some area ∧
      pyIntVal (data.getD 2 "") = some price ∧ fault = false ∧
      c' = ⟨conn.committed ++ (conn.pending ++
        [⟨uid, data.getD 0 "", area, price, data.getD 3 "", result⟩]), []⟩ := by
  unfold save_analysis at h
  split at h
  next h4 =>
    split at h
    next => simp at h
    next area hfv =>
      split at h
      next => simp at h
      next price hiv =>
        split at h
        next => simp at h
        next hfault =>
          simp only [Prod.mk.injEq] at h
          refine ⟨area, price, h4, hfv, hiv, by simpa using hfault, ?_⟩
          rw [← h.2]
          rfl
  next h4 => simp at h

/-- The wrapper-and-await step emits no `save_analysis` call (at most one
`remoteCall`). -/
theorem awaited_no_save (c : TTLCacheState) (now : Nat) (args : List PyVal)
    (data : List String) (responder : Responder) :
    (awaited_cached_analysis c now args data responder).1.all
      (fun e => !e.isSave) = true := by
  dsimp only [awaited_cached_analysis]
  split
  · split
    · rfl
    · split
      · rfl
      · rfl
  · rfl

/-- In revision 1 the analysis call's key contains the Python list `data`:
the wrapper raises `TypeError` before any lookup, store or request — for
every cache state, time, input and transport. -/
theorem awaited_cached_analysis_listkey (c : TTLCacheState) (now : Nat)
    (data : List String) (responder : Responder) :
    awaited_cached_analysis c now (deepseek_call_args data) data responder =
      ([], c, .error ()) := rfl

/-- Revision 1, parsed single-analysis input: the turn always ends at the
cached analysis call's `TypeError` — no remote request, no `save_analysis`
call, no document, only the generic error reply, connection untouched. -/
theorem analysisTurn_generic (uid : Int) (text line : String) (data : List String)
    (cache : TTLCacheState) (now : Nat) (responder : Responder) (fault : Bool)
    (conn : Conn) (hsplit : pySplit text '\n' = [line])
    (hdata : pySplit line '|' = data) (h4 : data.length = 4) :
    analysisTurn uid text cache now responder fault conn =
      ([.replyText genericErr], conn) := by
  dsimp only [analysisTurn]
  rw [hsplit]
  rw [if_neg (fun hc => hc rfl)]
  simp only [List.headD_cons]
  rw [hdata]
  rw [if_neg (fun hc => hc h4)]
  rw [awaited_cached_analysis_listkey]
  rfl

/-- Revision 1's analysis branch never changes the connection state. -/
theorem analysisTurn_snd (uid : Int) (text : String) (cache : TTLCacheState)
    (now : Nat) (responder : Responder) (fault : Bool) (conn : Conn) :
    (analysisTurn uid text cache now responder fault conn).2 = conn := by
  dsimp only [analysisTurn]
  split
  · rfl
  · split
    · rfl
    · rw [awaited_cached_analysis_listkey]

/-- The comparison branch never changes the connection state. -/
theorem comparisonTurn_snd (text : String) (cache : TTLCacheState) (now : Nat)
    (responder : Responder) (conn : Conn) :
    (comparisonTurn text cache now responder conn).2 = conn := by
  dsimp only [comparisonTurn]
  split
  · rfl
  · split
    · rfl
    · split
      · rfl
      · rfl

/-- The comparison loop emits no `save_analysis` call. -/
theorem compareLoop_no_save (responder : Responder) (now : Nat) :
    ∀ (lines : List String) (c : TTLCacheState) (evs : List Ev)
      (accA : List String) (accG : List Int),
    evs.all (fun e => !e.isSave) = true →
    (compareLoop responder now lines c evs accA accG).1.all
      (fun e => !e.isSave) = true := by
  intro lines
  cases lines with
  | nil => intro c evs a g h; exact h
  | cons line rest =>
    intro c evs a g h
    dsimp only [compareLoop]
    by_cases h4 : (pySplit line '|').length = 4
    · rw [if_neg (fun hc => hc h4), awaited_cached_analysis_listkey]
      dsimp only
      rw [List.all_append, List.all_append, h]
      rfl
    · rw [if_pos h4]
      rw [List.all_append, h]
      rfl

/-- The comparison branch emits no `save_analysis` call. -/
theorem comparisonTurn_no_save (text : String) (cache : TTLCacheState)
    (now : Nat) (responder : Responder) (conn : Conn) :
    (comparisonTurn text cache now responder conn).1.all
      (fun e => !e.isSave) = true := by
  dsimp only [comparisonTurn]
  split
  · rfl
  · have hloop := compareLoop_no_save responder now (pySplit text '\n') cache
      [] [] [] rfl
    split
    · next heq =>
      rw [heq] at hloop
      exact hloop
    · next evs analyses grades heq =>
      rw [heq] at hloop
      split
      · rw [List.all_append, hloop]
        rfl
      · rw [List.all_append, hloop]
        rfl

set_option maxRecDepth 100000 in
/-- Counterexample to C1 as stated: on the spec's own scenario-B input
`"Moscow|fifty|10000000|Apartment"` the turn's only observable output is the
generic error reply — the user never receives the format-error message and
no InvalidArea-specific behavior occurs; indeed the well-formed scenario-A
input produces the identical failure, so the failure does not correspond to
the invalid field at all. -/
theorem C1_counterexample :
    handle_message true false 1 badAreaInput cache_init 0 okResponder false ⟨[], []⟩ =
      ([.replyText genericErr], ⟨[], []⟩) ∧
    genericErr ≠ fmtErr ∧
    handle_message true false 1 goodInput cache_init 0 okResponder false ⟨[], []⟩ =
      ([.replyText genericErr], ⟨[], []⟩) := by
  refine ⟨by decide, by decide, by decide⟩

/-- C1 (amended): for a one-line input with exactly 4 fields whose field 2 is
not a valid real or whose field 3 is not a valid integer, the turn fails
before any remote request and before any `save_analysis` call — but with the
`@cached` wrapper's `TypeError` on the unhashable list key (raised for every
4-field input, numeric or not), not with a ParseError: the trace is exactly
the generic error reply — zero remote calls, zero persisted rows, no
document, and no format-error message. -/
theorem C1_amended : ∀ (uid : Int) (text line : String) (data : List String)
    (cache : TTLCacheState) (now : Nat) (responder : Responder) (fault : Bool)
    (conn : Conn),
    pySplit text '\n' = [line] → pySplit line '|' = data → data.length = 4 →
    (pyFloatVal (data.getD 1 "") = none ∨ pyIntVal (data.getD 2 "") = none) →
    handle_message true false uid text cache now responder fault conn =
      ([.replyText genericErr], conn) := by
  intro uid text line data cache now responder fault conn hsplit hdata h4 hbad
  simp only [handle_message, if_true]
  exact analysisTurn_generic uid text line data cache now responder fault conn
    hsplit hdata h4

/-- Witness for C1 (amended) at the scenario-B input with a stub 200
transport. -/
theorem C1_amended_witness :
    handle_message true false 1 badAreaInput cache_init 0 okResponder false ⟨[], []⟩ =
      ([.replyText genericErr], ⟨[], []⟩) :=
  C1_amended 1 badAreaInput badAreaInput
    ["Moscow", "fifty", "10000000", "Apartment"] cache_init 0 okResponder false
    ⟨[], []⟩ (by decide) (by decide) (by decide) (Or.inl (by decide))

/-- C2: the analyze body's status check does return the fixed fallback
narrative on a non-success status (first conjunct — the claim's intent,
implemented at the `response.status_code` branch of `deepseek_analysis`);
but the decorated call raises `TypeError` on its unhashable cache key before
the request is ever made, so even with the endpoint stubbed to answer 500
the turn ends at the generic error: no remote request, nothing persisted,
nothing rendered — the claimed continuation through grading, persistence and
rendering never happens (second conjunct). -/
theorem C2_cache_bug_blocks_fallback :
    deepseek_analysis_model ⟨500, none⟩ = fallbackMsg ∧
    handle_message true false 1 goodInput cache_init 0 failResponder false ⟨[], []⟩ =
      ([.replyText genericErr], ⟨[], []⟩) := by
  refine ⟨rfl, by decide⟩

/-- C4: `persist` is atomic — a successful call commits exactly the one new
row with the six supplied values; any conversion or database error rolls
back, leaving zero new rows, and re-raises (conjuncts 1-2: the Report Store
contract of `db_handler.py`); and at the turn level (conjunct 3) every
parsed single-analysis turn — in particular one with a database fault
injected — ends with only the generic failure message and an unchanged
connection: no rendering, no document, zero new rows.  (In this revision
the turn aborts even before persistence is reached, at the cached analysis
call's `TypeError`, so a fortiori no report is ever rendered or sent after
a storage fault.) -/
theorem C4_persist_atomic :
    (∀ (conn : Conn) (uid : Int) (data : List String) (result : String)
       (area : PyFloat) (price : Int),
      conn.pending = [] → data.length = 4 →
      pyFloatVal (data.getD 1 "") = some area →
      pyIntVal (data.getD 2 "") = some price →
      save_analysis conn uid data result false =
        (.ok (), ⟨conn.committed ++
          [⟨uid, data.getD 0 "", area, price, data.getD 3 "", result⟩], []⟩)) ∧
    (∀ (conn : Conn) (uid : Int) (data : List String) (result : String)
       (fault : Bool) (e : DBErr) (c' : Conn),
      save_analysis conn uid data result fault = (.error e, c') →
      c'.committed = conn.committed ∧ c'.pending = []) ∧
    (∀ (uid : Int) (text line : String) (data : List String)
       (cache : TTLCacheState) (now : Nat) (responder : Responder)
       (fault : Bool) (conn : Conn),
      pySplit text '\n' = [line] → pySplit line '|' = data → data.length = 4 →
      handle_message true false uid text cache now responder fault conn =
        ([.replyText genericErr], conn)) := by
  refine ⟨?_, ?_, ?_⟩
  · intro conn uid data result area price hp h4 hf hi
    exact save_analysis_ok conn uid data result area price hp h4 hf hi
  · intro conn uid data result fault e c' h
    exact save_analysis_err conn uid data result fault e c' h
  · intro uid text line data cache now responder fault conn hsplit hdata h4
    simp only [handle_message, if_true]
    exact analysisTurn_generic uid text line data cache now responder fault conn
      hsplit hdata h4

/-- Witness for C4: a successful persist of the scenario-A row; a
ValueError persist on `"fifty"` that leaves the empty database unchanged; and
a turn with the database fault injected that ends with only the generic error
and no new rows. -/
theorem C4_persist_atomic_witness :
    save_analysis ⟨[], []⟩ 1 ["Moscow", "50", "10000000", "Apartment"] "анализ" false =
      (.ok (), ⟨[⟨1, "Moscow", ⟨50, 0⟩, 10000000, "Apartment", "анализ"⟩], []⟩) ∧
    ((⟨[], []⟩ : Conn).committed = (⟨[], []⟩ : Conn).committed ∧
      (⟨[], []⟩ : Conn).pending = []) ∧
    handle_message true false 1 goodInput cache_init 0 okResponder true ⟨[], []⟩ =
      ([.replyText genericErr], ⟨[], []⟩) :=
  ⟨C4_persist_atomic.1 ⟨[], []⟩ 1 ["Moscow", "50", "10000000", "Apartment"]
      "анализ" ⟨50, 0⟩ 10000000 rfl (by decide) (by decide) (by decide),
   C4_persist_atomic.2.1 ⟨[], []⟩ 1 ["Moscow", "fifty", "10000000", "Apartment"]
      "анализ" false .valueError ⟨[], []⟩ rfl,
   C4_persist_atomic.2.2 1 goodInput goodInput
      ["Moscow", "50", "10000000", "Apartment"] cache_init 0 okResponder true
      ⟨[], []⟩ (by decide) (by decide) (by decide)⟩

/-- C5: the cache key `hashkey(data)` built by `@cached(cache)` for the call
`deepseek_analysis(data)` contains a Python list and is therefore unhashable:
every call — including the very first of two byte-identical ones — raises
`TypeError` inside the wrapper, so no narrative is ever returned from or
stored in the cache. -/
theorem C5_cache_key_type_error : ∀ (c : TTLCacheState) (now : Nat)
    (data : List String) (compute : String),
    pyHashable (PyVal.tuple (deepseek_call_args data)) = false ∧
    cachetools_cached_call c now (deepseek_call_args data) compute = .error () := by
  intro c now data compute
  exact ⟨rfl, rfl⟩

/-- C8: over one turn from a clean connection, the committed rows either
stay unchanged or grow by exactly one row whose input parsed (one line, four
fields, numeric area and price) and whose analysis call returned without
raising — possibly with the fallback narrative.  Under the faithful model of
the cached analysis call the analysis branch in fact always aborts before
persisting, so the committed rows never change and the stated invariant
holds a fortiori. -/
theorem C8_invariant : ∀ (aA aC : Bool) (uid : Int) (text : String)
    (cache : TTLCacheState) (now : Nat) (responder : Responder) (fault : Bool)
    (conn : Conn),
    conn.pending = [] →
    (handle_message aA aC uid text cache now responder fault conn).2.committed =
      conn.committed
    ∨ ∃ line data resp area price,
        pySplit text '\n' = [line] ∧ pySplit line '|' = data ∧ data.length = 4 ∧
        pyFloatVal (data.getD 1 "") = some area ∧
        pyIntVal (data.getD 2 "") = some price ∧
        responder data = .ok resp ∧
        (handle_message aA aC uid text cache now responder fault conn).2.committed =
          conn.committed ++ [⟨uid, data.getD 0 "", area, price, data.getD 3 "",
            deepseek_analysis_model resp⟩] := by
  intro aA aC uid text cache now responder fault conn hp
  cases aA with
  | false =>
    cases aC with
    | false =>
      left
      simp [handle_message]
    | true =>
      left
      simp only [handle_message, Bool.false_eq_true, if_false, if_true]
      rw [comparisonTurn_snd]
  | true =>
    left
    simp only [handle_message, if_true]
    rw [analysisTurn_snd]

/-- Witness for C8 at a concrete turn from the empty database. -/
theorem C8_invariant_witness :
    (handle_message true false 1 goodInput cache_init 0 okResponder false
        ⟨[], []⟩).2.committed = (⟨[], []⟩ : Conn).committed
    ∨ ∃ line data resp area price,
        pySplit goodInput '\n' = [line] ∧ pySplit line '|' = data ∧
        data.length = 4 ∧
        pyFloatVal (data.getD 1 "") = some area ∧
        pyIntVal (data.getD 2 "") = some price ∧
        okResponder data = .ok resp ∧
        (handle_message true false 1 goodInput cache_init 0 okResponder false
            ⟨[], []⟩).2.committed =
          (⟨[], []⟩ : Conn).committed ++ [⟨1, data.getD 0 "", area, price,
            data.getD 3 "", deepseek_analysis_model resp⟩] :=
  C8_invariant true false 1 goodInput cache_init 0 okResponder false ⟨[], []⟩ rfl

set_option maxRecDepth 100000 in
/-- C9: divergence of the two revisions on the same well-formed input and
the same stubbed 200 response — revision 1 raises `TypeError` at the cached
analysis call, so its whole trace is the generic error reply (no remote
request, nothing committed, no document); revision 2 performs the remote
call but then `save_analysis` receives the 28-character joined string and
raises `ValueError` (nothing committed, no document, its own generic error).
Neither revision persists a row or completes with a reply plus document, and
the two traces differ. -/
theorem C9_divergence :
    handle_message true false 1 goodInput cache_init 0 okResponder false ⟨[], []⟩ =
      ([.replyText genericErr], ⟨[], []⟩) ∧
    (handle_message2 1 goodInput cache_init 0 okResponder false ⟨[], []⟩).2.committed =
      [] ∧
    (handle_message2 1 goodInput cache_init 0 okResponder false ⟨[], []⟩).1.all
      (fun e => !e.isDoc) = true ∧
    Ev.replyText genericErr2 ∈
      (handle_message2 1 goodInput cache_init 0 okResponder false ⟨[], []⟩).1 ∧
    Ev.remoteCall ["Moscow", "50", "10000000", "Apartment"] ∈
      (handle_message2 1 goodInput cache_init 0 okResponder false ⟨[], []⟩).1 := by
  refine ⟨by decide, by decide, by decide, by decide, by decide⟩

/-- C10: a comparison-mode turn never modifies the database — the connection
state is returned untouched and the trace contains no `save_analysis` call,
whether or not the lines parse, for every cache state and transport. -/
theorem C10_no_persist : ∀ (uid : Int) (text : String) (cache : TTLCacheState)
    (now : Nat) (responder : Responder) (fault : Bool) (conn : Conn),
    (handle_message false true uid text cache now responder fault conn).2 = conn ∧
    (handle_message false true uid text cache now responder fault conn).1.all
      (fun e => !e.isSave) = true := by
  intro uid text cache now responder fault conn
  constructor
  · simp only [handle_message, Bool.false_eq_true, if_false, if_true]
    exact comparisonTurn_snd text cache now responder conn
  · simp only [handle_message, Bool.false_eq_true, if_false, if_true]
    exact comparisonTurn_no_save text cache now responder conn
